import Mathlib

/-!
# Verification of the Binance multi-pair trade monitor

Shallow embedding of `src/binance_monitor.py` and `src/config.py`
(class `BinanceMultiMonitor`).  Python floats are modelled as exact
rationals, `time.time()` instants as rationals passed explicitly,
the subscriber set (`self.subscribed_users`, a Python `set`) as a
`Finset ℤ`, and the notification timestamp list as a `List ℚ`.
Network effects (Telegram delivery) are modelled by an oracle
`deliver : ℤ → DeliveryOutcome` giving, for each chat id, the outcome
the `sendMessage` call would produce during the pass.
-/

namespace BinanceMonitor

/-- Outcome of one `session.post(.../sendMessage)` call for a single user,
as the code observes it: an HTTP response with a status code, or a raised
exception (the `except` branch at the end of the per-user loop body). -/
inductive DeliveryOutcome where
  | http (status : ℕ)
  | exc
deriving DecidableEq, Repr

/-- The mutable state of `BinanceMultiMonitor` that the verified methods
touch, together with the configuration values they read.
`spot_trades` / `futures_trades` are the `defaultdict(int)` counters keyed
by symbol; `max_per_minute` is
`notification_settings.get('max_notifications_per_minute', 10)`;
`min_amount` is the constructor argument (from `config.MIN_AMOUNT`). -/
structure MonitorState where
  subscribed_users : Finset ℤ
  notifications_sent : ℕ
  total_trades : ℕ
  spot_trades : String → ℕ
  futures_trades : String → ℕ
  notification_timestamps : List ℚ
  max_per_minute : ℕ
  min_amount : ℚ

/-- The pruning step of `can_send_notification` (line 124): keep only the
timestamps strictly younger than 60 seconds. -/
def pruneWindow (current_time : ℚ) (w : List ℚ) : List ℚ :=
  w.filter (fun ts => current_time - ts < 60)

/-- Model of `can_send_notification` (lines 120-128): prune the window in
place, then report whether its length is below the per-minute maximum.
Returns the state after pruning and the boolean answer. -/
def can_send_notification (current_time : ℚ) (s : MonitorState) :
    MonitorState × Bool :=
  let pruned := pruneWindow current_time s.notification_timestamps
  ({ s with notification_timestamps := pruned },
   decide (pruned.length < s.max_per_minute))

/-- Result of one call to `send_telegram_notification`: the state after the
call, the number of per-user delivery attempts made (iterations of the
`for user_id in self.subscribed_users` loop), and the number of
`save_subscribers()` calls performed. -/
structure BroadcastResult where
  state : MonitorState
  deliveries : ℕ
  saves : ℕ

/-- Accumulated `success_count` of the delivery loop (lines 195-209): the
number of users whose `sendMessage` call returned HTTP status 200. -/
def successCount (deliver : ℤ → DeliveryOutcome) (users : Finset ℤ) : ℕ :=
  (users.filter (fun u => deliver u = .http 200)).card

/-- Accumulated `failed_users` of the delivery loop (lines 196-213): the
users whose `sendMessage` call returned HTTP status 403 (the "user blocked
the bot" signal).  Any other non-200 status, and any raised exception, is
only logged and the user is kept. -/
def failedUsers (deliver : ℤ → DeliveryOutcome) (users : Finset ℤ) : Finset ℤ :=
  users.filter (fun u => deliver u = .http 403)

/-- Model of `send_telegram_notification` (lines 185-228).  `deliver`
gives the outcome of the delivery attempt for each user id; `t_check` is
the `time.time()` read inside `can_send_notification`, `t_append` the
later `time.time()` appended at line 227.

Faithful to the source:
* empty registry → early return at line 189 (before the rate-limit check,
  so no pruning happens in that case);
* rate limiter denies → early return at line 193 (the window stays
  pruned);
* if `failed_users` is non-empty, each is discarded from the live set and
  `save_subscribers()` is called once (lines 219-222);
* if `success_count > 0`, `notifications_sent` grows by `success_count`
  and one timestamp is appended (lines 225-227). -/
def send_telegram_notification (deliver : ℤ → DeliveryOutcome)
    (t_check t_append : ℚ) (s : MonitorState) : BroadcastResult :=
  if s.subscribed_users = ∅ then
    ⟨s, 0, 0⟩
  else
    let s1 := (can_send_notification t_check s).1
    if (can_send_notification t_check s).2 = false then
      ⟨s1, 0, 0⟩
    else
      let sc := successCount deliver s1.subscribed_users
      let fail := failedUsers deliver s1.subscribed_users
      let s2 :=
        if fail = ∅ then s1
        else { s1 with subscribed_users := s1.subscribed_users \ fail }
      let s3 :=
        if 0 < sc then
          { s2 with
            notifications_sent := s2.notifications_sent + sc,
            notification_timestamps :=
              s2.notification_timestamps ++ [t_append] }
        else s2
      ⟨s3, s1.subscribed_users.card, if fail = ∅ then 0 else 1⟩

/-- Market discriminator used throughout the source (the `market_type`
string, either `"SPOT"` or `"FUTURES"`). -/
inductive MarketType where
  | SPOT
  | FUTURES
deriving DecidableEq, Repr

/-- A successfully decoded trade payload: fields `p` (price), `q`
(quantity), `T` (event time, epoch milliseconds) and `m` (is buyer the
maker) of the JSON message, with the string-encoded decimals already
parsed (`float(trade_data['p'])`, `float(trade_data['q'])`). -/
structure TradeData where
  p : ℚ
  q : ℚ
  T : ℤ
  m : Bool

/-- Model of `handle_trade` (lines 267-288) for a successfully decoded
message.  Returns the updated state and the number of
`send_telegram_notification` calls the function issues (line 285): `1`
when `amount >= self.min_amount`, else `0`.  The statistics update at
lines 276-280 happens before and independently of the threshold test. -/
def handle_trade (td : TradeData) (market_type : MarketType)
    (symbol : String) (s : MonitorState) : MonitorState × ℕ :=
  let amount := td.p * td.q
  let s1 :=
    match market_type with
    | .SPOT =>
      { s with total_trades := s.total_trades + 1,
               spot_trades :=
                 Function.update s.spot_trades symbol
                   (s.spot_trades symbol + 1) }
    | .FUTURES =>
      { s with total_trades := s.total_trades + 1,
               futures_trades :=
                 Function.update s.futures_trades symbol
                   (s.futures_trades symbol + 1) }
  (s1, if s.min_amount ≤ amount then 1 else 0)

/-- The persisted subscriber record written by `save_subscribers`
(lines 94-98): the id list, an ISO `last_updated` stamp and a
`total_count` redundant with the list length. -/
structure SubscribersFile where
  subscribers : List ℤ
  last_updated : String
  total_count : ℕ

/-- Model of `save_subscribers` (lines 91-103): serialize
`list(self.subscribed_users)` — an arbitrary enumeration `users` of the
live set — together with a timestamp and the redundant count. -/
def save_subscribers (users : List ℤ) (last_updated : String) :
    SubscribersFile :=
  ⟨users, last_updated, users.length⟩

/-- Model of `load_subscribers` (lines 78-89): the new live set is
`set(data.get('subscribers', []))`; the `total_count` and `last_updated`
fields are never read. -/
def load_subscribers (f : SubscribersFile) : Finset ℤ :=
  f.subscribers.toFinset

/-- `RECONNECT_DELAY` from `config.py` line 19 ("seconds between
reconnection attempts"). -/
def RECONNECT_DELAY : ℕ := 5

/-- The sleep duration `websocket_handler` (lines 290-307) waits after a
connection-level error, as a function of the configured
`RECONNECT_DELAY`.  The source hardcodes `await asyncio.sleep(5)` at line
307 and never reads the configuration option, so the result is `5`
whatever the configuration says. -/
def websocket_backoff_delay (reconnect_delay_config : ℕ) : ℕ := 5

/-- Model of the delivery loop's iteration source
(`for user_id in self.subscribed_users:`, line 198) under one concurrent
registry addition.  `order` is the iteration sequence of the set's
elements at loop entry; `add_step`/`added_id` say that while the loop
body is suspended at an `await` after `add_step` elements have been
obtained, the inbox poller executes `self.subscribed_users.add(added_id)`
on the very object being iterated.  CPython semantics: adding an element
already present leaves the set unchanged, and an add that lands only
after the loop has fully terminated (`order.length < add_step`, i.e.
after the final exhausted `next` call already raised `StopIteration`)
cannot affect it — the loop then completes, visiting exactly `order`
(`some order`).  Adding a genuinely new id at any earlier point
structurally modifies the set while its iterator is still live and
faults the iteration (`RuntimeError: Set changed size during iteration`
— `none`): the set iterator checks its mutation guard before the
exhaustion check, so this holds even at `add_step = order.length`, when
every element has been obtained but the last body is still awaited and
the loop's closing `next` call is yet to come. -/
def live_set_iteration (order : List ℤ) (add_step : ℕ) (added_id : ℤ) :
    Option (List ℤ) :=
  if added_id ∈ order ∨ order.length < add_step then some order else none

/-- Modelled from the spec: iteration over a point-in-time snapshot copy
(`snapshot() -> set of ids`, spec §4.3) — the behaviour the spec claims
for the dispatcher.  A concurrent addition to the live set never touches
the copy being iterated, so the pass always completes visiting exactly
the snapshot. -/
def snapshot_iteration (order : List ℤ) (add_step : ℕ) (added_id : ℤ) :
    Option (List ℤ) :=
  some order

/-! ## Message formatting (`format_trade_message`, lines 230-265)

Python float formatting is modelled on exact rationals: `f"{x:.Nf}"`
rounds the value to `N` decimal digits with ties to even (the rounding
Python's fixed-point formatting applies to the value), and `f"{x:,.Nf}"`
additionally groups the integer digits in threes with commas. -/

/-- The decimal digit character for `d % 10`. -/
def digitChar (d : ℕ) : Char := Char.ofNat (48 + d % 10)

/-- Exactly `width` decimal digit characters of `k`, zero-padded on the
left (the fractional part of a fixed-point rendering). -/
def padZerosList (width : ℕ) (k : ℕ) : List Char :=
  match width with
  | 0 => []
  | w + 1 => padZerosList w (k / 10) ++ [digitChar (k % 10)]

/-- String form of `padZerosList`. -/
def padZeros (width : ℕ) (k : ℕ) : String := ⟨padZerosList width k⟩

/-- Round a rational to the nearest integer, ties to even. -/
def roundHalfEven (x : ℚ) : ℤ :=
  let n := ⌊x⌋
  let frac := x - n
  if frac < 1 / 2 then n
  else if 1 / 2 < frac then n + 1
  else if n % 2 = 0 then n else n + 1

/-- Fixed-point rendering `f"{x:.{prec}f}"`: round `x * 10 ^ prec` to an
integer (ties to even), then print integer part, a dot, and exactly
`prec` fractional digits (no dot when `prec = 0`). -/
def formatFixed (x : ℚ) (prec : ℕ) : String :=
  let scaled := roundHalfEven (x * (10 : ℚ) ^ prec)
  let sign := if scaled < 0 then "-" else ""
  let n := scaled.natAbs
  if prec = 0 then sign ++ Nat.repr n
  else sign ++ Nat.repr (n / 10 ^ prec) ++ "." ++ padZeros prec (n % 10 ^ prec)

/-- Insert a comma after every group of three characters of a reversed
digit list (helper for the `,` format option). -/
def groupRev : List Char → List Char
  | [] => []
  | [a] => [a]
  | [a, b] => [a, b]
  | [a, b, c] => [a, b, c]
  | a :: b :: c :: d :: rest => a :: b :: c :: ',' :: groupRev (d :: rest)

/-- Group the digits of a decimal string in threes with commas, from the
right. -/
def groupDigits (s : String) : String :=
  ⟨(groupRev s.data.reverse).reverse⟩

/-- Fixed-point rendering with thousands grouping, `f"{x:,.{prec}f}"`. -/
def formatFixedGrouped (x : ℚ) (prec : ℕ) : String :=
  let scaled := roundHalfEven (x * (10 : ℚ) ^ prec)
  let sign := if scaled < 0 then "-" else ""
  let n := scaled.natAbs
  if prec = 0 then sign ++ groupDigits (Nat.repr n)
  else sign ++ groupDigits (Nat.repr (n / 10 ^ prec)) ++ "." ++
    padZeros prec (n % 10 ^ prec)

/-- The `trade_type` string of `format_trade_message` (line 239):
the green "ПОКУПКА" (buy) tag when the buyer is not the maker — an
aggressive buy — and the red "ПРОДАЖА" (sell) tag when the buyer is the
maker. -/
def trade_type_str (is_buyer_maker : Bool) : String :=
  if is_buyer_maker = false then "🟢 ПОКУПКА" else "🔴 ПРОДАЖА"

/-- The `market_emoji` string of `format_trade_message` (line 242). -/
def market_emoji_str (market_type : MarketType) : String :=
  if market_type = .SPOT then "💱" else "📈"

/-- The `amount_str` of `format_trade_message` (lines 246-251): abbreviate
with `M` from 1,000,000 (two decimals), with `K` from 1,000 (one
decimal), else the full grouped integer amount. -/
def amount_str (amount : ℚ) : String :=
  if 1000000 ≤ amount then "$" ++ formatFixed (amount / 1000000) 2 ++ "M"
  else if 1000 ≤ amount then "$" ++ formatFixed (amount / 1000) 1 ++ "K"
  else "$" ++ formatFixedGrouped amount 0

/-- The rendered price field of `format_trade_message` (line 258):
`f"${price:,.4f}"`. -/
def price_str (price : ℚ) : String := "$" ++ formatFixedGrouped price 4

/-- The rendered quantity field of `format_trade_message` (line 259):
`f"{quantity:.6f}"`. -/
def quantity_str (quantity : ℚ) : String := formatFixed quantity 6

/-- Uppercase an ASCII letter (Python's `str.upper()` restricted to the
ASCII range, which covers every configured trading-pair symbol). -/
def upperChar (c : Char) : Char :=
  if 'a' ≤ c ∧ c ≤ 'z' then Char.ofNat (c.toNat - 32) else c

/-- Model of `symbol.upper()` for the ASCII symbols the monitor uses. -/
def upperString (s : String) : String := ⟨s.data.map upperChar⟩

/-- The deep-link URL of `format_trade_message` (line 262), templated
with the uppercased symbol. -/
def binance_url (symbol : String) : String :=
  "https://www.binance.com/ru/trade/" ++ upperString symbol

/-- A one-subscriber monitor state used to evaluate the dispatcher on
concrete inputs: subscriber set `{1}`, 7 notifications sent so far, no
trades, empty window, limit 10 per minute, threshold 1,000,000. -/
def exampleState : MonitorState :=
  ⟨{1}, 7, 0, fun _ => 0, fun _ => 0, [], 10, 1000000⟩

/-! ## Helper lemmas -/

lemma length_filter_lt_of_mem {α : Type} (p : α → Bool) (l : List α)
    (a : α) (ha : a ∈ l) (hpa : p a = false) :
    (l.filter p).length < l.length := by
  induction l with
  | nil => cases ha
  | cons b t ih =>
    rcases List.mem_cons.mp ha with rfl | hat
    · simp only [List.filter_cons, hpa, Bool.false_eq_true, if_false,
        List.length_cons]
      exact Nat.lt_succ_of_le (List.length_filter_le p t)
    · by_cases hb : p b = true
      · simp only [List.filter_cons, hb, if_true, List.length_cons]
        exact Nat.succ_lt_succ (ih hat)
      · rw [Bool.not_eq_true] at hb
        simp only [List.filter_cons, hb, Bool.false_eq_true, if_false,
          List.length_cons]
        exact Nat.lt_succ_of_lt (ih hat)

lemma pruneWindow_length_le (now : ℚ) (w : List ℚ) :
    (pruneWindow now w).length ≤ w.length :=
  List.length_filter_le _ w

lemma can_send_fst (t : ℚ) (s : MonitorState) :
    (can_send_notification t s).1 =
      { s with notification_timestamps :=
                 pruneWindow t s.notification_timestamps } := rfl

lemma can_send_snd (t : ℚ) (s : MonitorState) :
    (can_send_notification t s).2 = true ↔
      (pruneWindow t s.notification_timestamps).length < s.max_per_minute := by
  simp [can_send_notification]

/-- Closed form of `send_telegram_notification` when both preconditions
pass: the registry loses exactly the 403-failures, the counter grows by
the success count, and one timestamp is appended iff at least one
delivery succeeded. -/
lemma send_telegram_granted (deliver : ℤ → DeliveryOutcome) (t1 t2 : ℚ)
    (s : MonitorState) (hne : ¬ s.subscribed_users = ∅)
    (hadm : (can_send_notification t1 s).2 = true) :
    send_telegram_notification deliver t1 t2 s =
      ⟨{ s with
          subscribed_users :=
            s.subscribed_users \ failedUsers deliver s.subscribed_users,
          notifications_sent :=
            s.notifications_sent + successCount deliver s.subscribed_users,
          notification_timestamps :=
            if 0 < successCount deliver s.subscribed_users then
              pruneWindow t1 s.notification_timestamps ++ [t2]
            else pruneWindow t1 s.notification_timestamps },
        s.subscribed_users.card,
        if failedUsers deliver s.subscribed_users = ∅ then 0 else 1⟩ := by
  obtain ⟨su, ns, tt, st, ft, nt, mx, mn⟩ := s
  simp only [send_telegram_notification, can_send_fst] at *
  rw [if_neg hne, if_neg (by simp [hadm])]
  by_cases hf : failedUsers deliver su = ∅ <;>
    by_cases hsc : 0 < successCount deliver su <;>
      simp_all [hf, hsc, Finset.sdiff_empty, Nat.eq_zero_of_not_pos]

/-! ## Claim theorems -/

/-- C3: the rate limiter's admit check first prunes the window to entries
strictly within the last 60 seconds (on every call, even when admission
is denied), then answers true iff the pruned length is below the
per-minute maximum `M`; with `M` timestamps already in the window all
inside a 60-second span the next admission request returns false; and as
soon as 60 seconds have elapsed from some (in particular the earliest)
window timestamp, admission is available again. -/
theorem rate_limiter_admit_spec (now : ℚ) (s : MonitorState) :
    ((can_send_notification now s).1.notification_timestamps =
        pruneWindow now s.notification_timestamps) ∧
    ((can_send_notification now s).2 = true ↔
        (pruneWindow now s.notification_timestamps).length <
          s.max_per_minute) ∧
    (s.notification_timestamps.length = s.max_per_minute →
      (∀ ts ∈ s.notification_timestamps, now - ts < 60) →
      (can_send_notification now s).2 = false) ∧
    (∀ e ∈ s.notification_timestamps, 60 ≤ now - e →
      s.notification_timestamps.length ≤ s.max_per_minute →
      (can_send_notification now s).2 = true) := by
  refine ⟨rfl, can_send_snd now s, ?_, ?_⟩
  · intro hlen hall
    have hfull : pruneWindow now s.notification_timestamps =
        s.notification_timestamps :=
      List.filter_eq_self.mpr fun ts hts => by
        simpa using hall ts hts
    simp [can_send_notification, hfull, hlen]
  · intro e he h60 hlen
    have hlt : (pruneWindow now s.notification_timestamps).length <
        s.notification_timestamps.length :=
      length_filter_lt_of_mem _ _ e he (by simpa using not_lt.mpr h60)
    exact (can_send_snd now s).mpr (lt_of_lt_of_le hlt hlen)

/-- Witness for C3 at a concrete input: window `[0, 10]`, limit 2, now 30
(both entries inside the last 60 s, window full → denied); and now 70
(the earliest entry is 70 s old → admitted again). -/
theorem rate_limiter_admit_spec_witness :
    (can_send_notification 30
        { exampleState with notification_timestamps := [0, 10],
                            max_per_minute := 2 }).2 = false ∧
    (can_send_notification 70
        { exampleState with notification_timestamps := [0, 10],
                            max_per_minute := 2 }).2 = true := by
  constructor
  · exact (rate_limiter_admit_spec 30 _).2.2.1 (by norm_num [exampleState])
      (by intro ts hts; fin_cases hts <;> norm_num)
  · exact (rate_limiter_admit_spec 70 _).2.2.2 0 (by norm_num)
      (by norm_num) (by norm_num [exampleState])

/-- C10: the notification window never grows past the configured
per-minute maximum: starting from any state whose window respects the
bound, the rate-limit check (which only prunes), a full broadcast pass
(which appends at most one timestamp, and only after the check required
the pruned length to be strictly below the maximum), and trade handling
(which never touches the window) all preserve the bound. -/
theorem notification_window_bounded (s : MonitorState)
    (h : s.notification_timestamps.length ≤ s.max_per_minute) :
    (∀ now : ℚ,
      (can_send_notification now s).1.notification_timestamps.length ≤
        s.max_per_minute) ∧
    (∀ (deliver : ℤ → DeliveryOutcome) (t1 t2 : ℚ),
      (send_telegram_notification deliver t1 t2
          s).state.notification_timestamps.length ≤ s.max_per_minute) ∧
    (∀ (td : TradeData) (mt : MarketType) (sym : String),
      (handle_trade td mt sym s).1.notification_timestamps =
        s.notification_timestamps) := by
  refine ⟨?_, ?_, ?_⟩
  · intro now
    exact le_trans (pruneWindow_length_le now s.notification_timestamps) h
  · intro deliver t1 t2
    by_cases hne : s.subscribed_users = ∅
    · simp [send_telegram_notification, hne, h]
    · by_cases hadm : (can_send_notification t1 s).2 = true
      · rw [send_telegram_granted deliver t1 t2 s hne hadm]
        by_cases hsc : 0 < successCount deliver s.subscribed_users
        · have hlt := (can_send_snd t1 s).mp hadm
          simp only [hsc, if_true]
          simpa using hlt
        · simp only [hsc, if_false]
          exact le_trans (pruneWindow_length_le t1 _) h
      · rw [Bool.not_eq_true] at hadm
        simp [send_telegram_notification, hne, hadm, can_send_fst]
        exact le_trans (pruneWindow_length_le t1 _) h
  · intro td mt sym
    cases mt <;> simp [handle_trade]

/-- Witness for C10 at a concrete input: the one-subscriber example state
(window `[]`, limit 10) with an all-successful delivery pass. -/
theorem notification_window_bounded_witness :
    (send_telegram_notification (fun _ => .http 200) 100 101
        exampleState).state.notification_timestamps.length ≤
      exampleState.max_per_minute :=
  (notification_window_bounded exampleState (by norm_num [exampleState])).2.1
    (fun _ => .http 200) 100 101

/-- C7: when the registry is empty or the rate limiter denies admission,
the broadcast is a no-op beyond logging: no delivery is attempted, no
persistence write happens, the registry and the sent counter are
unchanged, and the window is unchanged apart from pruning (exactly: it is
untouched when the registry is empty — the empty-registry return happens
before the rate-limit check — and exactly pruned when the limiter
denies); the dropped alert is not retained anywhere in the state. -/
theorem broadcast_noop_on_failed_precondition
    (deliver : ℤ → DeliveryOutcome) (t1 t2 : ℚ) (s : MonitorState)
    (h : s.subscribed_users = ∅ ∨ (can_send_notification t1 s).2 = false) :
    (send_telegram_notification deliver t1 t2 s).deliveries = 0 ∧
    (send_telegram_notification deliver t1 t2 s).saves = 0 ∧
    (send_telegram_notification deliver t1 t2 s).state.subscribed_users =
      s.subscribed_users ∧
    (send_telegram_notification deliver t1 t2 s).state.notifications_sent =
      s.notifications_sent ∧
    List.Sublist
      (send_telegram_notification deliver t1 t2
        s).state.notification_timestamps s.notification_timestamps ∧
    (s.subscribed_users = ∅ →
      (send_telegram_notification deliver t1 t2 s).state = s) ∧
    (¬ s.subscribed_users = ∅ →
      (send_telegram_notification deliver t1 t2
          s).state.notification_timestamps =
        pruneWindow t1 s.notification_timestamps) := by
  by_cases hne : s.subscribed_users = ∅
  · simp [send_telegram_notification, hne, List.Sublist.refl]
  · have hadm : (can_send_notification t1 s).2 = false := by tauto
    simp [send_telegram_notification, hne, hadm, can_send_fst]
    exact List.filter_sublist s.notification_timestamps

/-- Witness for C7 at a concrete input: a state with one subscriber whose
window is already at the limit (limit 1, one fresh timestamp), so the
limiter denies; the pass makes no delivery, no save, and only prunes. -/
theorem broadcast_noop_on_failed_precondition_witness :
    (send_telegram_notification (fun _ => .http 200) 30 31
        { exampleState with notification_timestamps := [10],
                            max_per_minute := 1 }).deliveries = 0 ∧
    (send_telegram_notification (fun _ => .http 200) 30 31
        { exampleState with notification_timestamps := [10],
                            max_per_minute := 1 }).saves = 0 := by
  have h := broadcast_noop_on_failed_precondition (fun _ => .http 200) 30 31
    { exampleState with notification_timestamps := [10], max_per_minute := 1 }
    (Or.inr (by norm_num [can_send_notification, pruneWindow, exampleState]))
  exact ⟨h.1, h.2.1⟩

/-- C1 (counterexample): a broadcast pass that passes both preconditions
(registry `{1}` non-empty, empty window so the limiter admits) but whose
single delivery fails (HTTP 403) leaves the sent counter and the
rate-limiter window completely untouched — the accounting is *not*
unconditional over deliveries. -/
theorem broadcast_accounting_skipped_when_all_fail :
    exampleState.subscribed_users ≠ ∅ ∧
    (can_send_notification 100 exampleState).2 = true ∧
    (send_telegram_notification (fun _ => .http 403) 100 101
        exampleState).state.notifications_sent =
      exampleState.notifications_sent ∧
    (send_telegram_notification (fun _ => .http 403) 100 101
        exampleState).state.notification_timestamps =
      exampleState.notification_timestamps := by
  decide

/-- C1 (amended): on every broadcast pass that passes both preconditions,
the dispatcher increments the sent counter by the number of successful
deliveries and, precisely when at least one delivery succeeded, appends
exactly one timestamp to the rate-limiter window (one per broadcast pass,
not one per recipient); when no delivery succeeds, neither the counter
nor the window (beyond pruning) is touched. -/
theorem broadcast_accounting (deliver : ℤ → DeliveryOutcome)
    (t1 t2 : ℚ) (s : MonitorState) (hne : s.subscribed_users ≠ ∅)
    (hadm : (can_send_notification t1 s).2 = true) :
    (send_telegram_notification deliver t1 t2
        s).state.notifications_sent =
      s.notifications_sent + successCount deliver s.subscribed_users ∧
    (0 < successCount deliver s.subscribed_users →
      (send_telegram_notification deliver t1 t2
          s).state.notification_timestamps =
        pruneWindow t1 s.notification_timestamps ++ [t2]) ∧
    (successCount deliver s.subscribed_users = 0 →
      (send_telegram_notification deliver t1 t2
          s).state.notification_timestamps =
        pruneWindow t1 s.notification_timestamps) := by
  rw [send_telegram_granted deliver t1 t2 s hne hadm]
  refine ⟨rfl, ?_, ?_⟩
  · intro hsc
    simp [hsc]
  · intro hsc
    simp [hsc]

/-- Witness for C1 (amended) at a concrete input: one subscriber, the
delivery succeeds, so the counter grows by 1 and the timestamp 101 is
appended. -/
theorem broadcast_accounting_witness :
    (send_telegram_notification (fun _ => .http 200) 100 101
        exampleState).state.notifications_sent =
      exampleState.notifications_sent +
        successCount (fun _ => .http 200) exampleState.subscribed_users ∧
    (send_telegram_notification (fun _ => .http 200) 100 101
        exampleState).state.notification_timestamps =
      pruneWindow 100 exampleState.notification_timestamps ++ [101] := by
  have h := broadcast_accounting (fun _ => .http 200) 100 101 exampleState
    (by decide) (by decide)
  exact ⟨h.1, h.2.1 (by decide)⟩

/-- C2 (counterexample): a broadcast pass that passes both preconditions
and removes zero recipients (the single delivery succeeds) performs zero
persistence writes, not exactly one. -/
theorem broadcast_no_save_without_removal :
    exampleState.subscribed_users ≠ ∅ ∧
    (can_send_notification 100 exampleState).2 = true ∧
    (send_telegram_notification (fun _ => .http 200) 100 101
        exampleState).state.subscribed_users =
      exampleState.subscribed_users ∧
    (send_telegram_notification (fun _ => .http 200) 100 101
        exampleState).saves = 0 := by
  decide

/-- C2 (amended): on every broadcast pass that passes both preconditions,
exactly the recipients whose delivery reported HTTP 403 are removed from
the registry, in one batch after the pass — recipients with transient
failures or successes remain — and exactly one persistence write occurs
when at least one recipient was removed, zero writes when none was. -/
theorem broadcast_removal_and_persistence (deliver : ℤ → DeliveryOutcome)
    (t1 t2 : ℚ) (s : MonitorState) (hne : s.subscribed_users ≠ ∅)
    (hadm : (can_send_notification t1 s).2 = true) :
    (send_telegram_notification deliver t1 t2 s).state.subscribed_users =
      s.subscribed_users \ failedUsers deliver s.subscribed_users ∧
    (∀ u : ℤ,
      u ∈ (send_telegram_notification deliver t1 t2
            s).state.subscribed_users ↔
        u ∈ s.subscribed_users ∧ deliver u ≠ .http 403) ∧
    (send_telegram_notification deliver t1 t2 s).saves =
      (if failedUsers deliver s.subscribed_users = ∅ then 0 else 1) := by
  rw [send_telegram_granted deliver t1 t2 s hne hadm]
  refine ⟨rfl, ?_, rfl⟩
  intro u
  simp only [failedUsers, Finset.mem_sdiff, Finset.mem_filter,
    decide_eq_true_eq]
  tauto

/-- Witness for C2 (amended) at a concrete input: subscribers `{1, 2}`,
recipient 1 returns 403 and is removed, recipient 2 returns a transient
500 and remains, and exactly one save happens. -/
theorem broadcast_removal_and_persistence_witness :
    (send_telegram_notification
        (fun u => if u = 1 then .http 403 else .http 500) 100 101
        { exampleState with
            subscribed_users := ({1, 2} : Finset ℤ) }).state.subscribed_users =
      ({1, 2} : Finset ℤ) \
        failedUsers (fun u => if u = 1 then .http 403 else .http 500)
          ({1, 2} : Finset ℤ) ∧
    (send_telegram_notification
        (fun u => if u = 1 then .http 403 else .http 500) 100 101
        { exampleState with
            subscribed_users := ({1, 2} : Finset ℤ) }).saves = 1 := by
  have h := broadcast_removal_and_persistence
    (fun u => if u = 1 then .http 403 else .http 500) 100 101
    { exampleState with subscribed_users := ({1, 2} : Finset ℤ) }
    (by decide) (by decide)
  exact ⟨h.1, by rw [h.2.2]; decide⟩

lemma padZerosList_length (w : ℕ) : ∀ k, (padZerosList w k).length = w := by
  induction w with
  | zero => intro k; rfl
  | succ n ih => intro k; simp [padZerosList, ih]

lemma padZeros_length (w k : ℕ) : (padZeros w k).length = w := by
  simp [padZeros, String.length_mk, padZerosList_length]

/-- C4: for every successfully decoded trade, `handle_trade` increments
the global trade counter and the per-(market, symbol) counter exactly
once — regardless of the threshold — leaving every other symbol's
counters untouched; and it issues exactly one broadcast
(`send_telegram_notification` call) iff the notional
`price × quantity` reaches the configured minimum, and none otherwise. -/
theorem handle_trade_spec (td : TradeData) (mt : MarketType)
    (sym : String) (s : MonitorState) :
    ((handle_trade td mt sym s).1.total_trades = s.total_trades + 1) ∧
    (mt = .SPOT →
      (handle_trade td mt sym s).1.spot_trades sym =
          s.spot_trades sym + 1 ∧
      (handle_trade td mt sym s).1.futures_trades = s.futures_trades) ∧
    (mt = .FUTURES →
      (handle_trade td mt sym s).1.futures_trades sym =
          s.futures_trades sym + 1 ∧
      (handle_trade td mt sym s).1.spot_trades = s.spot_trades) ∧
    (∀ sym2 : String, sym2 ≠ sym →
      (handle_trade td mt sym s).1.spot_trades sym2 = s.spot_trades sym2 ∧
      (handle_trade td mt sym s).1.futures_trades sym2 =
        s.futures_trades sym2) ∧
    ((handle_trade td mt sym s).2 = 1 ↔ s.min_amount ≤ td.p * td.q) ∧
    ((handle_trade td mt sym s).2 = 0 ↔ td.p * td.q < s.min_amount) := by
  refine ⟨?_, ?_, ?_, ?_, ?_, ?_⟩
  · cases mt <;> rfl
  · rintro rfl
    simp [handle_trade, Function.update]
  · rintro rfl
    simp [handle_trade, Function.update]
  · intro sym2 hne
    cases mt <;> simp [handle_trade, Function.update, hne]
  · cases mt <;>
      · simp only [handle_trade]
        split <;> simp_all
  · cases mt <;>
      · simp only [handle_trade]
        split <;> simp_all

/-- Witness for C4 at the spec's own scenario: threshold 1,000,000, a
SPOT trade on "btcusdt" with notional 999,999 → zero broadcasts, global
counter and the (SPOT, "btcusdt") counter still increment by 1. -/
theorem handle_trade_spec_witness :
    (handle_trade ⟨999999, 1, 0, false⟩ .SPOT "btcusdt"
        exampleState).1.total_trades = exampleState.total_trades + 1 ∧
    (handle_trade ⟨999999, 1, 0, false⟩ .SPOT "btcusdt"
        exampleState).1.spot_trades "btcusdt" =
      exampleState.spot_trades "btcusdt" + 1 ∧
    (handle_trade ⟨999999, 1, 0, false⟩ .SPOT "btcusdt"
        exampleState).2 = 0 := by
  have h := handle_trade_spec ⟨999999, 1, 0, false⟩ .SPOT "btcusdt"
    exampleState
  exact ⟨h.1, (h.2.1 rfl).1,
    h.2.2.2.2.2.mpr (by norm_num [exampleState])⟩

/-- C5: the spec's alert-formatting scenario and the general formatting
rules.  With threshold 1,000,000, the trade price=50000, quantity=25
(notional 1,250,000) on "btcusdt"/SPOT triggers exactly one broadcast;
its notional renders as "$1.25M" and, with `isBuyerMaker = false`, its
direction is the buy tag.  In general the notional is abbreviated with
`M` from 1,000,000 and with `K` from 1,000, the price carries exactly 4
digits after the decimal point, the quantity exactly 6, and the deep-link
URL is templated with the uppercased symbol. -/
theorem format_trade_message_spec :
    ((handle_trade ⟨50000, 25, 1700000000000, false⟩ .SPOT "btcusdt"
        exampleState).2 = 1) ∧
    amount_str (50000 * 25) = "$1.25M" ∧
    trade_type_str false = "🟢 ПОКУПКА" ∧
    trade_type_str true = "🔴 ПРОДАЖА" ∧
    (∀ a : ℚ, 1000000 ≤ a →
      ∃ m : String, amount_str a = "$" ++ m ++ "M") ∧
    (∀ a : ℚ, 1000 ≤ a → a < 1000000 →
      ∃ k : String, amount_str a = "$" ++ k ++ "K") ∧
    (∀ p : ℚ, ∃ pre post : String,
      price_str p = pre ++ "." ++ post ∧ post.length = 4) ∧
    (∀ q : ℚ, ∃ pre post : String,
      quantity_str q = pre ++ "." ++ post ∧ post.length = 6) ∧
    binance_url "btcusdt" = "https://www.binance.com/ru/trade/BTCUSDT" := by
  refine ⟨?_, ?_, rfl, rfl, ?_, ?_, ?_, ?_, by decide⟩
  · have h := (handle_trade_spec ⟨50000, 25, 1700000000000, false⟩ .SPOT
      "btcusdt" exampleState).2.2.2.2.1
    exact h.mpr (by norm_num [exampleState])
  · norm_num [amount_str, formatFixed, roundHalfEven]
    rfl
  · intro a ha
    exact ⟨formatFixed (a / 1000000) 2, by rw [amount_str, if_pos ha]⟩
  · intro a ha1 ha2
    refine ⟨formatFixed (a / 1000) 1, ?_⟩
    rw [amount_str, if_neg (not_le.mpr ha2), if_pos ha1]
  · intro p
    refine ⟨"$" ++ ((if roundHalfEven (p * (10 : ℚ) ^ 4) < 0 then "-"
        else "") ++
      groupDigits (Nat.repr ((roundHalfEven (p * (10 : ℚ) ^ 4)).natAbs /
        10 ^ 4))),
      padZeros 4 ((roundHalfEven (p * (10 : ℚ) ^ 4)).natAbs % 10 ^ 4),
      ?_, padZeros_length 4 _⟩
    simp only [price_str, formatFixedGrouped, String.append_assoc]
    norm_num
  · intro q
    refine ⟨(if roundHalfEven (q * (10 : ℚ) ^ 6) < 0 then "-" else "") ++
      Nat.repr ((roundHalfEven (q * (10 : ℚ) ^ 6)).natAbs / 10 ^ 6),
      padZeros 6 ((roundHalfEven (q * (10 : ℚ) ^ 6)).natAbs % 10 ^ 6),
      ?_, padZeros_length 6 _⟩
    simp only [quantity_str, formatFixed, String.append_assoc]
    norm_num

/-- Witness for C5: the hypotheses of the general formatting clauses
discharged at concrete notionals (2,000,000 for the M branch; 1,500 for
the K branch), alongside the closed scenario facts. -/
theorem format_trade_message_spec_witness :
    amount_str (50000 * 25) = "$1.25M" ∧
    (∃ m : String, amount_str 2000000 = "$" ++ m ++ "M") ∧
    (∃ k : String, amount_str 1500 = "$" ++ k ++ "K") ∧
    (∃ pre post : String,
      price_str 50000 = pre ++ "." ++ post ∧ post.length = 4) ∧
    (∃ pre post : String,
      quantity_str 25 = pre ++ "." ++ post ∧ post.length = 6) :=
  ⟨format_trade_message_spec.2.1,
   format_trade_message_spec.2.2.2.2.1 2000000 (by norm_num),
   format_trade_message_spec.2.2.2.2.2.1 1500 (by norm_num) (by norm_num),
   format_trade_message_spec.2.2.2.2.2.2.1 50000,
   format_trade_message_spec.2.2.2.2.2.2.2.1 25⟩

/-- C6: the code contradicts the configuration's stated purpose — the
reconnect sleep in `websocket_handler` is the literal constant 5 and does
not equal the configured `RECONNECT_DELAY` whenever that option is set to
anything other than 5 (e.g. 10). -/
theorem websocket_backoff_ignores_config :
    websocket_backoff_delay 10 = 5 ∧
    websocket_backoff_delay RECONNECT_DELAY = 5 ∧
    (10 : ℕ) ≠ 5 := by
  decide

/-- C8: saving the registry and loading it back reproduces the identical
id set: whatever enumeration `list(self.subscribed_users)` produced, the
loaded set is the original membership; two enumerations that are
permutations of each other load to the same set; and the `total_count`
field is ignored on load — any record with the same id list loads to the
same set whatever its count (and timestamp) say. -/
theorem subscribers_roundtrip (users1 users2 : List ℤ)
    (lu1 lu2 lu3 : String) (c : ℕ) :
    load_subscribers (save_subscribers users1 lu1) = users1.toFinset ∧
    (users1.Perm users2 →
      load_subscribers (save_subscribers users1 lu1) =
        load_subscribers (save_subscribers users2 lu2)) ∧
    load_subscribers ⟨users1, lu3, c⟩ = users1.toFinset := by
  refine ⟨rfl, ?_, rfl⟩
  intro hperm
  exact List.toFinset_eq_of_perm users1 users2 hperm

/-- Witness for C8 at a concrete input: the enumerations `[1, 2]` and
`[2, 1]` (the same set inserted in two orders) load back to the same set;
a record with a wrong count 99 still loads the list's membership. -/
theorem subscribers_roundtrip_witness :
    load_subscribers (save_subscribers [1, 2] "a") =
      ([1, 2] : List ℤ).toFinset ∧
    load_subscribers (save_subscribers [1, 2] "a") =
      load_subscribers (save_subscribers [2, 1] "b") ∧
    load_subscribers ⟨[1, 2], "c", 99⟩ = ([1, 2] : List ℤ).toFinset := by
  have h := subscribers_roundtrip [1, 2] [2, 1] "a" "b" "c" 99
  exact ⟨h.1, h.2.1 (by decide), h.2.2⟩

/-- C9 (counterexample): with live subscribers iterated in order
`[1, 2]` and the inbox poller adding the genuinely new id 3 while the
loop is suspended after its first element, the code's live-set iteration
faults, whereas iteration over a point-in-time snapshot copy would
complete unaffected — so the dispatcher does *not* iterate over a
snapshot. -/
theorem dispatcher_iterates_live_set :
    live_set_iteration [1, 2] 1 3 = none ∧
    snapshot_iteration [1, 2] 1 3 = some [1, 2] := by
  decide

/-- C9 (amended): the delivery loop iterates the live shared set, not a
copy: its behaviour coincides with snapshot iteration exactly when a
concurrent addition targets an id already present, or lands only after
the loop has fully terminated (strictly more steps than elements — the
final exhausted `next` call included); an addition of a genuinely new id
at any point while the pass is in progress, the last element's awaited
delivery included, mutates the very collection being iterated and faults
the pass.  (Removals are unaffected because the code defers them until
after the loop.) -/
theorem dispatcher_live_vs_snapshot (order : List ℤ) (add_step : ℕ)
    (added_id : ℤ) :
    live_set_iteration order add_step added_id =
        snapshot_iteration order add_step added_id ↔
      (added_id ∈ order ∨ order.length < add_step) := by
  by_cases h : added_id ∈ order ∨ order.length < add_step <;>
    simp [live_set_iteration, snapshot_iteration, h]

end BinanceMonitor
